import Mathlib

/-!
Verification of the web-crawler discovery-and-extraction services against their
specification.  The Python sources embedded here are:

  * `backend/services/llm_filter.py`    — the Relevance Adapter,
  * `backend/services/llm_extractor.py` — the Content Preprocessor and Extraction Adapter,
  * `backend/models.py`                 — the pydantic data model.

External collaborators (the OpenAI chat API, the lxml parser underlying
BeautifulSoup, the process environment) are modelled as explicit parameters or
outcome values; everything the Python functions themselves compute is translated
directly.
-/

namespace WebCrawler

/-- A Python/JSON value as produced by `json.loads`: strings, integers, floats,
booleans, `None`/`null`, lists and (string-keyed) dicts.  Floats are carried as
rationals but are never computed with — they only matter as "not an int". -/
inductive PyVal where
  | str (s : String)
  | int (n : Int)
  | float (x : Rat)
  | bool (b : Bool)
  | null
  | list (xs : List PyVal)
  | dict (kvs : List (String × PyVal))

/-- `d.get(k)` on a Python `Dict[str, str]` (modelled as an association list with
distinct keys): the value at `k`, or `None` when absent.  Also models
`os.environ.get(k)`. -/
def pyGet (d : List (String × String)) (k : String) : Option String :=
  (d.find? (fun kv => kv.1 == k)).map (fun kv => kv.2)

/-- Lookup in a parsed JSON object: `v[k]` when `v` is a dict holding `k`. -/
def pyDictGet (v : PyVal) (k : String) : Option PyVal :=
  match v with
  | .dict kvs => (kvs.find? (fun kv => kv.1 == k)).map (fun kv => kv.2)
  | _ => none

/-- Python truthiness of an `Optional[str]`: `None` and `""` are falsy. -/
def optTruthy : Option String → Bool
  | none => false
  | some s => s != ""

/-- A search-result candidate: a Python `Dict[str, str]` with keys such as
`url`, `title`, `snippet`, `content`, `description`. -/
abbrev Candidate := List (String × String)

/-- The url a candidate contributes to the filter's output: `r.get("url")`
when truthy (present and non-empty), per the guards `if r.get("url")`
(llm_filter.py lines 29/107/111/115) and `if url` (line 100). -/
def candUrl (r : Candidate) : Option String :=
  match pyGet r "url" with
  | some u => if u = "" then none else some u
  | none => none

/-- The fail-open result `[r.get("url") for r in results if r.get("url")]`
(llm_filter.py lines 29, 107, 111, 115). -/
def failOpenUrls (results : List Candidate) : List String :=
  results.filterMap candUrl

/-- `isinstance(v, int)` for a JSON value, returning the integer.  Python
`bool` is a subclass of `int` (`True == 1`, `False == 0`), so JSON booleans
pass the check; strings, floats, null, lists and dicts do not. -/
def asPyInt : PyVal → Option Int
  | .int n => some n
  | .bool b => some (if b then 1 else 0)
  | _ => none

/-- One iteration of the index loop (llm_filter.py lines 97-101): an element of
the parsed list that is a Python int with `0 <= idx < len(results)` appends
`results[idx].get("url")` to the accumulator when that url is truthy; every
other element leaves the accumulator unchanged. -/
def selectStep (results : List Candidate) (acc : List String) (v : PyVal) : List String :=
  match asPyInt v with
  | some i =>
    if 0 ≤ i ∧ i < (results.length : Int) then
      match (results.get? i.toNat).bind candUrl with
      | some u => acc ++ [u]
      | none => acc
    else acc
  | none => acc

/-- The `valid_urls` accumulation over the parsed indices (lines 96-104). -/
def selectByIndices (results : List Candidate) (indices : List PyVal) : List String :=
  indices.foldl (selectStep results) []

/-- Outcome of the external classification call in `filter_search_results`:
the API call raised (lines 113-115), its reply was not JSON (lines 108-111),
or it parsed to some JSON value (line 94). -/
inductive FilterOutcome where
  | raised
  | notJson
  | json (v : PyVal)

/-- `filter_search_results` (llm_filter.py lines 11-117).  `openai` is whether
the `openai` import succeeded (lines 6-9); `env` is `os.environ`; the external
chat call is abstracted by `outcome`.  Prompt construction (lines 34-75) only
feeds that external call and is omitted. -/
def filter_search_results (openai : Bool) (env : List (String × String))
    (results : List Candidate) (query : String) (outcome : FilterOutcome) : List String :=
  if results.isEmpty then []
  else if !openai || !optTruthy (pyGet env "OPENAI_API_KEY") then failOpenUrls results
  else
    match outcome with
    | .raised => failOpenUrls results
    | .notJson => failOpenUrls results
    | .json (.list xs) => selectByIndices results xs
    | .json _ => failOpenUrls results

/-- The classification capability is unavailable: no client or no (truthy) API
key (llm_filter.py lines 26-29). -/
def classificationUnavailable (openai : Bool) (env : List (String × String)) : Prop :=
  openai = false ∨ optTruthy (pyGet env "OPENAI_API_KEY") = false

/-- The classification reply cannot be interpreted as a list of indices: the
call raised, the reply was not JSON, or the JSON was not a list. -/
def uninterpretableResponse : FilterOutcome → Prop
  | .raised => True
  | .notJson => True
  | .json v => ∀ xs, v ≠ .list xs

/-- `v` is a valid index into `results`: a Python int (booleans included) with
`0 <= idx < len(results)` (llm_filter.py line 98). -/
def validIndexVal (results : List Candidate) (v : PyVal) : Prop :=
  ∃ i : Int, asPyInt v = some i ∧ 0 ≤ i ∧ i < (results.length : Int)

/-- A bs4 attribute value: a plain string, or a list of strings (bs4 returns a
list for multi-valued attributes such as `class`).  Python truthiness: `""` and
`[]` are falsy. -/
inductive AttrVal where
  | s (v : String)
  | l (vs : List String)

/-- A parsed HTML node as produced by `BeautifulSoup(html, "lxml")`: an element
with tag name, attributes and children, or a text (string) node.  The document
returned by the parser is itself a node (bs4's `[document]` root). -/
inductive Node where
  | elem (tag : String) (attrs : List (String × AttrVal)) (children : List Node)
  | text (s : String)

/-- The HTML-cleaning dependency: `BeautifulSoup(·, "lxml")` as an abstract
parse function producing the document node, or `none` when the `bs4` import
failed (llm_extractor.py lines 7-10). -/
abbrev Bs4 := Option (String → Node)

/-- Python string slicing `s[:n]`. -/
def pyTruncate (s : String) (n : Nat) : String := ⟨s.data.take n⟩

/-- Python `str.strip()`: remove leading and trailing whitespace. -/
def pyStrip (s : String) : String :=
  ⟨((s.data.dropWhile Char.isWhitespace).reverse.dropWhile Char.isWhitespace).reverse⟩

/-- Tags removed by `clean_content` (llm_extractor.py line 23). -/
def blacklistTags : List String :=
  ["script", "style", "nav", "header", "footer", "iframe", "svg", "noscript", "meta"]

/-- Whether a node is one of the blacklisted elements. -/
def isBlacklisted : Node → Bool
  | .elem t _ _ => blacklistTags.contains t
  | .text _ => false

mutual
/-- `tag.decompose()` applied to every blacklisted descendant (lines 23-24):
blacklisted subtrees are removed wholesale. -/
def stripBlacklisted : Node → Node
  | .text s => .text s
  | .elem t a cs => .elem t a (stripBlacklistedList cs)
def stripBlacklistedList : List Node → List Node
  | [] => []
  | c :: cs =>
    (if isBlacklisted c then [] else [stripBlacklisted c]) ++ stripBlacklistedList cs
end

/-- Serialization of one attribute as it appears in `str(node)`. -/
def attrText : AttrVal → String
  | .s v => v
  | .l vs => " ".intercalate vs

/-- The ` k="v"` attribute chunks of `str(node)`. -/
def renderAttrs (a : List (String × AttrVal)) : String :=
  String.join (a.map (fun kv => " " ++ kv.1 ++ "=\"" ++ attrText kv.2 ++ "\""))

mutual
/-- `str(node)`: serialize a node back to markup (lines 32/34). -/
def renderNode : Node → String
  | .text s => s
  | .elem t a cs => "<" ++ t ++ renderAttrs a ++ ">" ++ renderNodes cs ++ "</" ++ t ++ ">"
def renderNodes : List Node → String
  | [] => ""
  | c :: cs => renderNode c ++ renderNodes cs
end

mutual
/-- `soup.find(t)` (line 30): the first element with the given tag, depth-first. -/
def findTag (t : String) : Node → Option Node
  | .text _ => none
  | .elem tag a cs => if tag = t then some (.elem tag a cs) else findTagList t cs
def findTagList (t : String) : List Node → Option Node
  | [] => none
  | c :: cs =>
    match findTag t c with
    | some n => some n
    | none => findTagList t cs
end

/-- `clean_content` (llm_extractor.py lines 12-34): without bs4 the input is
returned unmodified (line 18); otherwise blacklisted tags are decomposed and
`str(body)[:15000]` — or `str(soup)[:15000]` when no body exists — is returned. -/
def clean_content (bs : Bs4) (html_content : String) : String :=
  match bs with
  | none => html_content
  | some parse =>
    match findTag "body" (stripBlacklisted (parse html_content)) with
    | some body => pyTruncate (renderNode body) 15000
    | none => pyTruncate (renderNode (stripBlacklisted (parse html_content))) 15000

mutual
/-- `tag.get_text(strip=True)` (line 59): the concatenation of all descendant
strings, each stripped of surrounding whitespace. -/
def getTextStrip : Node → String
  | .text s => pyStrip s
  | .elem _ _ cs => getTextStripList cs
def getTextStripList : List Node → String
  | [] => ""
  | c :: cs => getTextStrip c ++ getTextStripList cs
end

/-- The tags matched by `soup.find_all(["a", "button", "input"])` (line 47). -/
def interactiveTags : List String := ["a", "button", "input"]

mutual
/-- `soup.find_all(["a", "button", "input"])`: all matching descendants in
document (depth-first preorder) order, nested matches included. -/
def findAllInteractive : Node → List Node
  | .text _ => []
  | .elem tag a cs =>
    (if interactiveTags.contains tag then [Node.elem tag a cs] else [])
      ++ findAllInteractiveList cs
def findAllInteractiveList : List Node → List Node
  | [] => []
  | c :: cs => findAllInteractive c ++ findAllInteractiveList cs
end

/-- `tag.get(attr)` on a parsed element. -/
def getAttr (attrs : List (String × AttrVal)) (k : String) : Option AttrVal :=
  (attrs.find? (fun kv => kv.1 == k)).map (fun kv => kv.2)

/-- Python truthiness of `tag.get(attr)` (`if val:`, line 55): absent, `""`
and `[]` are falsy. -/
def attrValTruthy : Option AttrVal → Bool
  | none => false
  | some (.s v) => v != ""
  | some (.l vs) => !vs.isEmpty

/-- An `attr="value"` chunk (lines 51, 57); a list value is joined with spaces
(line 56).  (`href` is single-valued under the lxml tree builder.) -/
def renderAttrPair (k : String) (v : AttrVal) : String :=
  k ++ "=\"" ++ attrText v ++ "\""

/-- The attributes collected by the element loop after `href` (line 53). -/
def loopAttrs : List String := ["id", "class", "aria-label", "title", "name", "value", "type"]

/-- One interactive-element descriptor: tag name, joined attribute string, and
visible text (truncated to 50 characters at construction, line 59). -/
structure ElemDescr where
  tagName : String
  attrStr : String
  text : String

/-- One iteration of the element loop (llm_extractor.py lines 47-62).  The
text-node case is unreachable (`find_all` returns elements only). -/
def mkDescr (n : Node) : ElemDescr :=
  match n with
  | .text s => ⟨"", "", pyTruncate (pyStrip s) 50⟩
  | .elem tag attrs cs =>
    let hrefPart : List String :=
      match getAttr attrs "href" with
      | some v => if tag == "a" && attrValTruthy (some v) then [renderAttrPair "href" v] else []
      | none => []
    let keyAttrs : List String := loopAttrs.filterMap (fun k =>
      match getAttr attrs k with
      | some v => if attrValTruthy (some v) then some (renderAttrPair k v) else none
      | none => none)
    ⟨tag, " ".intercalate (hrefPart ++ keyAttrs), pyTruncate (getTextStripList cs) 50⟩

/-- `f'<{tag.name} {attr_str}>{text}</{tag.name}>'` (line 62). -/
def renderDescr (d : ElemDescr) : String :=
  "<" ++ d.tagName ++ " " ++ d.attrStr ++ ">" ++ d.text ++ "</" ++ d.tagName ++ ">"

/-- The descriptor listing `elements[:500]` actually returned (line 64);
empty without bs4 or on empty input (lines 40-41). -/
def returnedDescrs (bs : Bs4) (html_content : String) : List ElemDescr :=
  match bs with
  | none => []
  | some parse =>
    if html_content = "" then []
    else ((findAllInteractive (parse html_content)).map mkDescr).take 500

/-- `extract_interactive_elements` (llm_extractor.py lines 36-64):
`"\n".join(elements[:500])` where each element is a rendered descriptor. -/
def extract_interactive_elements (bs : Bs4) (html_content : String) : String :=
  String.intercalate "\n" ((returnedDescrs bs html_content).map renderDescr)

/-- The process state visible to this module: the environment variables
(`os.environ`) and the standard-output log (`print`). -/
structure PyState where
  environ : List (String × String)
  stdout : List String

/-- `clean_content` with the process state threaded explicitly: its body
(lines 12-34) reads no environment variable, prints nothing and mutates no
global, so the translation leaves the state untouched. -/
def clean_contentSt (bs : Bs4) (html_content : String) (σ : PyState) : String × PyState :=
  (clean_content bs html_content, σ)

/-- `extract_interactive_elements` with the process state threaded explicitly:
its body (lines 36-64) is likewise free of state access. -/
def extract_interactive_elementsSt (bs : Bs4) (html_content : String) (σ : PyState) :
    String × PyState :=
  (extract_interactive_elements bs html_content, σ)

/-- Outcome of the external extraction call (llm_extractor.py lines 157-168):
the API call or the `json.loads` of its reply raised, or the reply parsed to
some JSON value. -/
inductive ExtractCallOutcome where
  | raised
  | parsed (v : PyVal)

/-- The fail-closed default `{"companies": [], "next_page_url": None,
"pagination_selector": None}` (lines 74 and 173). -/
def emptyExtraction : PyVal :=
  .dict [("companies", .list []), ("next_page_url", .null), ("pagination_selector", .null)]

/-- `extract_data_with_llm` (llm_extractor.py lines 66-173).  `env` is
`os.environ`; the external chat call and the parse of its reply are abstracted
by `outcome`.  Prompt construction (lines 78-155) only feeds that call and is
omitted; on success the parsed JSON is returned verbatim (lines 168-169). -/
def extract_data_with_llm (env : List (String × String))
    (content_markdown html_content query : String) (outcome : ExtractCallOutcome) : PyVal :=
  if !optTruthy (pyGet env "OPENAI_API_KEY") then emptyExtraction
  else
    match outcome with
    | .raised => emptyExtraction
    | .parsed v => v

/-- The extraction capability is unavailable (no truthy API key, lines 71-74)
or the call raised / its reply was unparsable (lines 171-173). -/
def extractionFails (env : List (String × String)) (outcome : ExtractCallOutcome) : Prop :=
  optTruthy (pyGet env "OPENAI_API_KEY") = false ∨ outcome = .raised

/-- `Company` (models.py lines 9-16). -/
structure Company where
  name : String
  website : Option String
  description : Option String
  email : Option String
  phone : Option String
  address : Option String
  source_url : String

/-- `SearchResponse` (models.py lines 24-26). -/
structure SearchResponse where
  results : List Company
  total_companies : Int

/-- `SearchRequest` (models.py lines 4-7). -/
structure SearchRequest where
  query : String
  limit : Int
  country : Option String

/-- A raw request body before pydantic validation: each declared field may be
absent or hold any JSON value. -/
structure RawRequest where
  query : Option PyVal
  limit : Option PyVal
  country : Option PyVal

/-- Pydantic's rejection of a malformed request body. -/
inductive RequestError where
  | validationError

/-- Pydantic check of `query: str`: required, must be a string. -/
def validateQuery : Option PyVal → Except RequestError String
  | some (.str q) => .ok q
  | _ => .error .validationError

/-- Pydantic check of `limit: int = 10`: optional with default 10, must be an
integer when present. -/
def validateLimit : Option PyVal → Except RequestError Int
  | none => .ok 10
  | some (.int n) => .ok n
  | some _ => .error .validationError

/-- Pydantic check of `country: Optional[str] = None`. -/
def validateCountry : Option PyVal → Except RequestError (Option String)
  | none => .ok none
  | some .null => .ok none
  | some (.str s) => .ok (some s)
  | some _ => .error .validationError

/-- Pydantic validation of `SearchRequest` (models.py lines 4-7): the model
declares bare types `str` / `int` / `Optional[str]` with no further
constraints, so validation checks presence and type only. -/
def validateSearchRequest (raw : RawRequest) : Except RequestError SearchRequest := do
  let q ← validateQuery raw.query
  let l ← validateLimit raw.limit
  let c ← validateCountry raw.country
  return ⟨q, l, c⟩

/-- Modelled from the spec: the Pipeline Orchestrator (not under src/)
assembles the final response; per §3, "response carries {results: ordered
sequence of Company (dedup'd), total_companies: integer = |results|}". -/
def assembleSearchResponse (results : List Company) : SearchResponse :=
  ⟨results, (results.length : Int)⟩

/-- A concrete candidate with a well-formed url, for witnesses. -/
def cand0 : Candidate := [("url", "http://a.example")]

/-- An environment holding a (truthy) API key, for witnesses. -/
def goodEnv : List (String × String) := [("OPENAI_API_KEY", "sk-test")]

/-- A parsed extraction reply holding one company record whose name strips to
the empty string. -/
def emptyNameReply : PyVal :=
  .dict [("companies",
           .list [.dict [("name", .str "  "), ("source_url", .str "http://x.example")]]),
         ("next_page_url", .null), ("pagination_selector", .null)]

/-- An input of 15001 characters, longer than the 15000-character bound. -/
def oversizedHtml : String := ⟨List.replicate 15001 'a'⟩

theorem pyTruncate_length_le (s : String) (n : Nat) : (pyTruncate s n).length ≤ n := by
  show (s.data.take n).length ≤ n
  exact List.length_take_le n s.data

theorem candUrl_eq_some (r : Candidate) (u : String) :
    candUrl r = some u ↔ pyGet r "url" = some u ∧ u ≠ "" := by
  unfold candUrl
  cases h : pyGet r "url" with
  | none => simp
  | some v =>
    show (if v = "" then (none : Option String) else some v) = some u ↔
      some v = some u ∧ u ≠ ""
    rcases eq_or_ne v "" with hv | hv
    · subst hv
      rw [if_pos rfl]
      constructor
      · intro h'; cases h'
      · rintro ⟨h1, h2⟩
        exact absurd (Option.some.inj h1).symm h2
    · rw [if_neg hv]
      constructor
      · intro h'
        have hvu : v = u := Option.some.inj h'
        exact ⟨h', hvu ▸ hv⟩
      · rintro ⟨h1, -⟩
        exact h1

theorem mem_failOpenUrls (l : List Candidate) (u : String) :
    u ∈ failOpenUrls l ↔ ∃ r ∈ l, candUrl r = some u := by
  simp [failOpenUrls, List.mem_filterMap]

theorem failOpenUrls_of_all_urls :
    ∀ l : List Candidate, (∀ r ∈ l, ∃ u, pyGet r "url" = some u ∧ u ≠ "") →
      failOpenUrls l = l.map (fun r => (pyGet r "url").getD "") := by
  intro l
  induction l with
  | nil => intro _; rfl
  | cons r t ih =>
    intro hall
    obtain ⟨u, hu, hne⟩ := hall r (List.mem_cons_self r t)
    have hc : candUrl r = some u := (candUrl_eq_some r u).mpr ⟨hu, hne⟩
    have ih' := ih (fun x hx => hall x (List.mem_cons_of_mem r hx))
    unfold failOpenUrls at ih' ⊢
    rw [List.filterMap_cons_some hc, List.map_cons, ih', hu]
    rfl

theorem selectStep_invalid (results : List Candidate) (acc : List String) (v : PyVal)
    (hv : ¬ validIndexVal results v) : selectStep results acc v = acc := by
  unfold selectStep
  cases ha : asPyInt v with
  | none => rfl
  | some i => exact if_neg (fun hcond => hv ⟨i, ha, hcond.1, hcond.2⟩)

theorem mem_selectStep (results : List Candidate) (acc : List String) (v : PyVal)
    (u : String) (hu : u ∈ selectStep results acc v) :
    u ∈ acc ∨ ∃ r ∈ results, candUrl r = some u := by
  unfold selectStep at hu
  split at hu
  · split at hu
    · split at hu
      · rcases List.mem_append.mp hu with h | h
        · exact Or.inl h
        · have huw : u = _ := List.mem_singleton.mp h
          subst huw
          rename_i hb
          rcases Option.bind_eq_some.mp hb with ⟨r, hr, hcu⟩
          exact Or.inr ⟨r, List.get?_mem hr, hcu⟩
      · exact Or.inl hu
    · exact Or.inl hu
  · exact Or.inl hu

theorem mem_selectByIndices_aux (results : List Candidate) (xs : List PyVal) :
    ∀ (acc : List String) (u : String),
      u ∈ xs.foldl (selectStep results) acc →
      u ∈ acc ∨ ∃ r ∈ results, candUrl r = some u := by
  induction xs with
  | nil => intro acc u hu; exact Or.inl hu
  | cons v vs ih =>
    intro acc u hu
    rcases ih (selectStep results acc v) u hu with h | h
    · exact mem_selectStep results acc v u h
    · exact Or.inr h

theorem selectByIndices_erase_invalid (results : List Candidate) (xs ys : List PyVal)
    (v : PyVal) (hv : ¬ validIndexVal results v) :
    selectByIndices results (xs ++ v :: ys) = selectByIndices results (xs ++ ys) := by
  unfold selectByIndices
  rw [List.foldl_append, List.foldl_append, List.foldl_cons,
    selectStep_invalid results _ v hv]

theorem mem_filter_search_results (openai : Bool) (env : List (String × String))
    (results : List Candidate) (query : String) (oc : FilterOutcome) (u : String)
    (hu : u ∈ filter_search_results openai env results query oc) :
    ∃ r ∈ results, candUrl r = some u := by
  unfold filter_search_results at hu
  split at hu
  · exact absurd hu (List.not_mem_nil u)
  · split at hu
    · exact (mem_failOpenUrls results u).mp hu
    · split at hu
      · exact (mem_failOpenUrls results u).mp hu
      · exact (mem_failOpenUrls results u).mp hu
      · rcases mem_selectByIndices_aux results _ [] u hu with h | h
        · exact absurd h (List.not_mem_nil u)
        · exact h
      · exact (mem_failOpenUrls results u).mp hu

/-- C1: fail-open relevance filter — for every non-empty candidate list and
query, if the classification capability is unavailable (no client or no API
key) or its response cannot be interpreted as a list of valid indices (the
call raised, non-JSON output, or JSON that is not a list),
`filter_search_results` returns the candidates' URLs unfiltered in their
original order: the url of every candidate whose url is present and
non-empty, and — when every candidate carries a non-empty url — exactly one
url per candidate, in order. -/
theorem filter_fail_open (openai : Bool) (env : List (String × String))
    (results : List Candidate) (query : String) (oc : FilterOutcome)
    (hne : results ≠ [])
    (hfail : classificationUnavailable openai env ∨ uninterpretableResponse oc) :
    filter_search_results openai env results query oc = failOpenUrls results ∧
    ((∀ r ∈ results, ∃ u, pyGet r "url" = some u ∧ u ≠ "") →
      filter_search_results openai env results query oc
        = results.map (fun r => (pyGet r "url").getD "")) := by
  have hemp : results.isEmpty = false := by
    cases results with
    | nil => exact absurd rfl hne
    | cons a l => rfl
  have h1 : filter_search_results openai env results query oc = failOpenUrls results := by
    unfold filter_search_results
    rw [hemp]
    simp only [Bool.false_eq_true, if_false]
    by_cases hav : (!openai || !optTruthy (pyGet env "OPENAI_API_KEY")) = true
    · rw [if_pos hav]
    · rw [if_neg hav]
      rcases hfail with hun | hresp
      · exfalso
        rcases hun with ho | hk
        · subst ho; simp at hav
        · rw [hk] at hav; simp at hav
      · cases oc with
        | raised => rfl
        | notJson => rfl
        | json v =>
          cases v with
          | list xs => exact absurd rfl (hresp xs)
          | str s => rfl
          | int n => rfl
          | float x => rfl
          | bool b => rfl
          | null => rfl
          | dict kvs => rfl
  exact ⟨h1, fun hall => h1.trans (failOpenUrls_of_all_urls results hall)⟩

/-- C1 witness: one candidate with a url, classification unavailable. -/
theorem filter_fail_open_witness :
    ([cand0] ≠ ([] : List Candidate)) ∧
    (classificationUnavailable false [] ∨ uninterpretableResponse .raised) ∧
    filter_search_results false [] [cand0] "cosmetics suppliers Nepal" .raised
      = failOpenUrls [cand0] := by
  refine ⟨by simp, Or.inl (Or.inl rfl), ?_⟩
  exact (filter_fail_open false [] [cand0] "cosmetics suppliers Nepal" .raised
    (by simp) (Or.inl (Or.inl rfl))).1

/-- C4: every index in the parsed list that is not a Python integer (booleans
being integers in Python) or that lies outside `[0, len(candidates))` is
silently discarded — removing it does not change the result — and candidate
indexing is always in bounds: every url the call returns is the url of
`candidates[i]` for an in-range index `i`, so an invalid index never causes
the call to fail. -/
theorem filter_discards_invalid_indices (openai : Bool) (env : List (String × String))
    (results : List Candidate) (query : String) (xs ys : List PyVal) (v : PyVal)
    (hv : ¬ validIndexVal results v) :
    filter_search_results openai env results query (.json (.list (xs ++ v :: ys)))
      = filter_search_results openai env results query (.json (.list (xs ++ ys))) ∧
    ∀ u ∈ filter_search_results openai env results query (.json (.list (xs ++ v :: ys))),
      ∃ i : Fin results.length, candUrl (results.get i) = some u := by
  constructor
  · by_cases hemp : results.isEmpty
    · simp [filter_search_results, hemp]
    · by_cases hav : (!openai || !optTruthy (pyGet env "OPENAI_API_KEY")) = true
      · simp [filter_search_results, hemp, hav]
      · simp [filter_search_results, hemp, hav,
          selectByIndices_erase_invalid results xs ys v hv]
  · intro u hu
    rcases mem_filter_search_results _ _ _ _ _ _ hu with ⟨r, hr, hcu⟩
    rcases List.mem_iff_get.mp hr with ⟨i, hi⟩
    exact ⟨i, by rw [hi]; exact hcu⟩

/-- C4 witness: at one candidate, the JSON string `"x"` is not a valid index
and is discarded without failing. -/
theorem filter_discards_invalid_indices_witness :
    (¬ validIndexVal [cand0] (.str "x")) ∧
    filter_search_results true goodEnv [cand0] "q" (.json (.list [.str "x"]))
      = filter_search_results true goodEnv [cand0] "q" (.json (.list [])) := by
  have hv : ¬ validIndexVal [cand0] (.str "x") := by
    rintro ⟨i, hi, -⟩
    simp [asPyInt] at hi
  exact ⟨hv,
    (filter_discards_invalid_indices true goodEnv [cand0] "q" [] [] (.str "x") hv).1⟩

/-- C10: every string in the list returned by `filter_search_results` is the
non-empty url value of some candidate in the input list, on the LLM-selected
path and on every fail-open path: the filter never invents a URL and never
returns a missing or empty one. -/
theorem filter_urls_from_candidates (openai : Bool) (env : List (String × String))
    (results : List Candidate) (query : String) (oc : FilterOutcome) (u : String)
    (hu : u ∈ filter_search_results openai env results query oc) :
    ∃ r ∈ results, pyGet r "url" = some u ∧ u ≠ "" := by
  rcases mem_filter_search_results openai env results query oc u hu with ⟨r, hr, hcu⟩
  exact ⟨r, hr, (candUrl_eq_some r u).mp hcu⟩

/-- C10 witness: the url returned on a fail-open run comes from the candidate. -/
theorem filter_urls_from_candidates_witness :
    ("http://a.example" ∈ filter_search_results false [] [cand0] "q" .notJson) ∧
    ∃ r ∈ [cand0], pyGet r "url" = some "http://a.example" ∧
      "http://a.example" ≠ "" := by
  have hmem : "http://a.example" ∈ filter_search_results false [] [cand0] "q" .notJson := by
    show "http://a.example" ∈ filter_search_results false [] [cand0] "q" .notJson
    have he : filter_search_results false [] [cand0] "q" .notJson
        = ["http://a.example"] := rfl
    rw [he]
    exact List.mem_singleton.mpr rfl
  exact ⟨hmem,
    filter_urls_from_candidates false [] [cand0] "q" .notJson "http://a.example" hmem⟩

/-- C2: fail-closed extraction — for every input content and query, if the
extraction capability is unavailable (no truthy API key) or the call raised
(which includes unparsable output, since `json.loads` runs inside the same
`try`), `extract_data_with_llm` returns an empty companies list together with
null `next_page_url` and null `pagination_selector`, rather than raising. -/
theorem extract_fail_closed (env : List (String × String))
    (content_markdown html_content query : String) (oc : ExtractCallOutcome)
    (hf : extractionFails env oc) :
    pyDictGet (extract_data_with_llm env content_markdown html_content query oc)
        "companies" = some (.list []) ∧
    pyDictGet (extract_data_with_llm env content_markdown html_content query oc)
        "next_page_url" = some .null ∧
    pyDictGet (extract_data_with_llm env content_markdown html_content query oc)
        "pagination_selector" = some .null := by
  have hempty : extract_data_with_llm env content_markdown html_content query oc
      = emptyExtraction := by
    rcases hf with hk | ho
    · unfold extract_data_with_llm
      rw [hk]
      rfl
    · subst ho
      unfold extract_data_with_llm
      by_cases hk : optTruthy (pyGet env "OPENAI_API_KEY")
      · rw [hk]; rfl
      · rw [Bool.not_eq_true] at hk
        rw [hk]
        rfl
  rw [hempty]
  exact ⟨rfl, rfl, rfl⟩

/-- C2 witness: no API key in the environment. -/
theorem extract_fail_closed_witness :
    extractionFails [] .raised ∧
    pyDictGet (extract_data_with_llm [] "content" "html" "q" .raised) "companies"
      = some (.list []) := by
  refine ⟨Or.inr rfl, ?_⟩
  exact (extract_fail_closed [] "content" "html" "q" .raised (Or.inr rfl)).1

/-- C3 counterexample: with a truthy API key and a parsed reply holding a
company record whose `name` is whitespace only (empty after trimming),
`extract_data_with_llm` returns that record in its companies list — no
discarding happens in this adapter. -/
theorem extract_returns_empty_name_record :
    pyDictGet (extract_data_with_llm goodEnv "content" "html" "q" (.parsed emptyNameReply))
        "companies"
      = some (.list [.dict [("name", .str "  "), ("source_url", .str "http://x.example")]]) ∧
    pyStrip "  " = "" := by
  exact ⟨rfl, rfl⟩

/-- C3 (amended): `extract_data_with_llm` performs no name-based filtering —
whenever the API key is truthy and the reply parses, the parsed JSON is
returned verbatim, empty-name records included; any discarding of records
whose trimmed `name` is empty would have to happen downstream of this
adapter. -/
theorem extract_passthrough (env : List (String × String))
    (content_markdown html_content query : String) (v : PyVal)
    (hk : optTruthy (pyGet env "OPENAI_API_KEY") = true) :
    extract_data_with_llm env content_markdown html_content query (.parsed v) = v := by
  unfold extract_data_with_llm
  rw [hk]
  rfl

/-- C3 amended witness: the pass-through at a concrete reply. -/
theorem extract_passthrough_witness :
    optTruthy (pyGet goodEnv "OPENAI_API_KEY") = true ∧
    extract_data_with_llm goodEnv "content" "html" "q" (.parsed emptyNameReply)
      = emptyNameReply := by
  refine ⟨rfl, ?_⟩
  exact extract_passthrough goodEnv "content" "html" "q" emptyNameReply rfl

/-- C6 counterexample: when the HTML-cleaning dependency is unavailable,
`clean_content` returns its input unmodified, so on a 15001-character input
the output exceeds the claimed 15000-character bound. -/
theorem clean_content_exceeds_bound :
    15000 < (clean_content none oversizedHtml).length := by
  show 15000 < (List.replicate 15001 'a').length
  rw [List.length_replicate]
  norm_num

/-- C6 (amended): whenever cleaning can be performed (the parser is
available), `clean_content` returns at most 15000 characters; and on every
input and configuration, `extract_interactive_elements` builds a listing of
at most 500 element descriptors, each with visible text truncated to at most
50 characters.  Without the parser, `clean_content` falls back to the
unmodified input, which this bound does not cover. -/
theorem preprocessor_bounds (parse : String → Node) (bs : Bs4) (html : String) :
    (clean_content (some parse) html).length ≤ 15000 ∧
    (returnedDescrs bs html).length ≤ 500 ∧
    ∀ d ∈ returnedDescrs bs html, d.text.length ≤ 50 := by
  refine ⟨?_, ?_, ?_⟩
  · cases hf : findTag "body" (stripBlacklisted (parse html)) with
    | none =>
      simp only [clean_content, hf]
      exact pyTruncate_length_le _ 15000
    | some body =>
      simp only [clean_content, hf]
      exact pyTruncate_length_le _ 15000
  · cases bs with
    | none => simp [returnedDescrs]
    | some p =>
      simp only [returnedDescrs]
      by_cases h0 : html = ""
      · rw [if_pos h0]; simp
      · rw [if_neg h0]
        exact List.length_take_le 500 _
  · intro d hd
    cases bs with
    | none => exact absurd hd (List.not_mem_nil d)
    | some p =>
      simp only [returnedDescrs] at hd
      by_cases h0 : html = ""
      · rw [if_pos h0] at hd
        exact absurd hd (List.not_mem_nil d)
      · rw [if_neg h0] at hd
        have hd' := List.take_subset 500 _ hd
        rcases List.mem_map.mp hd' with ⟨n, -, rfl⟩
        cases n with
        | text s => exact pyTruncate_length_le _ 50
        | elem tag attrs cs => exact pyTruncate_length_le _ 50

/-- C7: preprocessor fallback — for every input, if cleaning cannot be
performed (the HTML-cleaning dependency is unavailable), `clean_content`
returns its input unmodified and does not raise. -/
theorem clean_content_fallback (html : String) : clean_content none html = html := rfl

/-- C8: determinism and statelessness of the Content Preprocessor — with the
process state (environment and output log) threaded explicitly, two runs of
`clean_content` or `extract_interactive_elements` on equal inputs produce
equal outputs whatever the states, and neither run changes the state: there
is no dependence on prior calls or on external mutable state. -/
theorem preprocessor_deterministic_stateless (bs : Bs4) (html : String)
    (σ₁ σ₂ : PyState) :
    (clean_contentSt bs html σ₁).1 = (clean_contentSt bs html σ₂).1 ∧
    (clean_contentSt bs html σ₁).2 = σ₁ ∧
    (extract_interactive_elementsSt bs html σ₁).1
      = (extract_interactive_elementsSt bs html σ₂).1 ∧
    (extract_interactive_elementsSt bs html σ₁).2 = σ₁ :=
  ⟨rfl, rfl, rfl, rfl⟩

/-- C5 counterexample: a request body with an empty query string and a limit
of 0 passes `SearchRequest` validation — it is accepted, not rejected with a
ValidationError, because models.py declares bare `str` and `int` types with
no non-emptiness or positivity constraint. -/
theorem searchRequest_accepts_invalid :
    validateSearchRequest ⟨some (.str ""), some (.int 0), none⟩
      = .ok ⟨"", 0, none⟩ := rfl

/-- C5 (amended): `SearchRequest` validation enforces presence and types
only — any string query (the empty string included) with any integer limit
(values below 1 included) is accepted, while a missing query is rejected with
a ValidationError; no non-emptiness or positivity check runs. -/
theorem searchRequest_type_check_only (q : String) (n : Int) :
    validateSearchRequest ⟨some (.str q), some (.int n), none⟩ = .ok ⟨q, n, none⟩ ∧
    validateSearchRequest ⟨none, some (.int n), none⟩ = .error .validationError :=
  ⟨rfl, rfl⟩

/-- C9: for every `SearchResponse` produced by the pipeline (modelled from
the spec, the orchestrator being outside src/), `total_companies` equals the
number of entries in `results`. -/
theorem response_total_matches_results (rs : List Company) :
    (assembleSearchResponse rs).total_companies
      = ((assembleSearchResponse rs).results.length : Int) := rfl

end WebCrawler
